import Mathlib

/-!
Shallow embedding of the print-job lifecycle coordinator
(`src/browser/printing/print_job.cc`, class `printing::PrintJob`).

The coordinator's observable state is a record:
* the fields of the C++ object (`document_`, `settings_`, `source_`,
  `worker_`, `is_job_pending_`, `is_canceling_`, `is_stopping_`,
  `is_stopped_`, the registrar subscription, the `quit_factory_` weak
  pointers),
* plus explicit logs of external effects: events published on the
  notification service (each record also snapshots the value of
  `is_job_pending_` at the instant of publication, i.e. what a synchronous
  handler observes), tasks posted to the worker thread's message loop,
  direct synchronous `worker_->Cancel()` calls, tasks posted to the UI
  loop (`OnDocumentDone`), and blocking stop operations submitted to the
  worker pool (`ControlledWorkerShutdown`'s `PostTaskAndReply`).

Each C++ method becomes a pure function on that record.  `Notify`
synchronously redelivers the event to the coordinator itself via
`Observe`/`OnNotifyPrintJobEvent` exactly when the registrar subscription
is active (`Initialize` adds it, `Stop` removes it).  Asynchronous pieces
(the posted `OnDocumentDone` continuation, the worker-pool stop task and
its `HoldUntilStopIsCalled` reply) become separate scheduler actions of a
step relation `Reachable`.  Pointer identity of `PrintedDocument*` is
modelled by structural equality of the document record, which carries an
`id` field standing for the allocation identity.  `DCHECK`s are
non-fatal in release builds and are not modelled; the step relation only
guards the dereferences that would be undefined behaviour (calling
`StartPrinting`/`Cancel`/`Stop` on a coordinator whose `worker_` was
never created by `Initialize`).
-/

/-- Model of `printing::PrintSettings`: an opaque payload.  `Clear()`
resets it to the default-constructed value. -/
structure PrintSettings where
  data : Nat
deriving DecidableEq, Repr

/-- `PrintSettings::Clear()`: reset to the default-constructed value. -/
def PrintSettings.clear (_s : PrintSettings) : PrintSettings :=
  { data := 0 }

/-- Model of `printing::PrintedDocument` as seen by `PrintJob`: the
`id` field stands for the pointer identity of the heap allocation. -/
structure PrintedDocument where
  id : Nat
  cookie : Int
  settings : PrintSettings
  page_count : Nat
  sourceConnected : Bool
deriving DecidableEq, Repr

/-- The closed set of job event types (`JobEventDetails::Type`). -/
inductive JobEventType where
  | USER_INIT_DONE
  | USER_INIT_CANCELED
  | DEFAULT_INIT_DONE
  | NEW_DOC
  | NEW_PAGE
  | PAGE_DONE
  | DOC_DONE
  | JOB_DONE
  | ALL_PAGES_REQUESTED
  | FAILED
deriving DecidableEq, Repr

/-- Model of `JobEventDetails`: event type plus optional document and
page references. -/
structure JobEventDetails where
  type : JobEventType
  document : Option PrintedDocument
  page : Option Unit
deriving DecidableEq, Repr

/-- One entry of the published-event log: the payload plus the value of
`is_job_pending_` at the instant `Notify` ran (what any synchronous
handler of this publication observes). -/
structure PublishedRecord where
  event : JobEventDetails
  pendingAtPublish : Bool
deriving DecidableEq, Repr

/-- Tasks `PrintJob` posts to the worker thread's message loop. -/
inductive WorkerTask where
  | startPrinting (document : Option PrintedDocument)
  | onDocumentChanged (document : Option PrintedDocument)
deriving DecidableEq, Repr

/-- The observable state of a `PrintJob` object together with the logs
of its external effects.  `worker = none` models `worker_` not yet
created; `worker = some alive` models a created worker whose
`message_loop()` is non-null exactly when `alive` is true. -/
structure PrintJobState where
  document : Option PrintedDocument
  settings : PrintSettings
  source : Option Nat
  worker : Option Bool
  is_job_pending : Bool
  is_canceling : Bool
  is_stopping : Bool
  is_stopped : Bool
  registered : Bool
  quitScheduled : Bool
  published : List PublishedRecord
  workerTasks : List WorkerTask
  workerCancelCalls : Nat
  docDoneTasks : Nat
  poolPending : Nat
deriving DecidableEq, Repr

/-- The state established by the constructor `PrintJob::PrintJob()`. -/
def PrintJob.initialState : PrintJobState :=
  { document := none
    settings := { data := 0 }
    source := none
    worker := none
    is_job_pending := false
    is_canceling := false
    is_stopping := false
    is_stopped := false
    registered := false
    quitScheduled := false
    published := []
    workerTasks := []
    workerCancelCalls := 0
    docDoneTasks := 0
    poolPending := 0 }

/-- `PrintJob::cookie()`: 0 (the invalid cookie) when there is no
document, otherwise the document's cookie. -/
def PrintJob.cookie (s : PrintJobState) : Int :=
  match s.document with
  | none => 0
  | some d => d.cookie

/-- `PrintJob::UpdatePrintedDocument(new_document)`: no-op when the new
document is pointer-identical to the current one; otherwise swap the
owned document, refresh `settings_` from it when non-null, and when the
worker exists and its loop is alive post an `OnDocumentChanged` task to
the worker loop. -/
def PrintJob.updatePrintedDocument (s : PrintJobState)
    (new_document : Option PrintedDocument) : PrintJobState :=
  if s.document = new_document then s
  else
    { s with
      document := new_document
      settings :=
        match new_document with
        | some d => d.settings
        | none => s.settings
      workerTasks :=
        if s.worker = some true then
          WorkerTask.onDocumentChanged new_document :: s.workerTasks
        else s.workerTasks }

/-- Cross-platform part of `PrintJob::ControlledWorkerShutdown()` (the
`OS_WIN` message drain is platform-specific and outside this model):
set `is_stopping_` and submit the blocking `PrintJobWorker::Stop` to the
worker pool with the `HoldUntilStopIsCalled` reply. -/
def PrintJob.controlledWorkerShutdown (s : PrintJobState) : PrintJobState :=
  { s with is_stopping := true, poolPending := s.poolPending + 1 }

/-- `PrintJob::HoldUntilStopIsCalled`: the continuation the worker pool
posts back to the UI loop after `PrintJobWorker::Stop` returns. -/
def PrintJob.holdUntilStopIsCalled (s : PrintJobState) : PrintJobState :=
  { s with is_stopped := true, is_stopping := false }

/-- Scheduler step: the worker pool runs the blocking
`PrintJobWorker::Stop` (after which the worker thread's message loop is
gone) and then the UI loop runs the `HoldUntilStopIsCalled` reply. -/
def PrintJob.runPoolStopTask (s : PrintJobState) : PrintJobState :=
  PrintJob.holdUntilStopIsCalled
    { s with worker := some false, poolPending := s.poolPending - 1 }

/-- `PrintJob::Stop()`: quit a pending nested loop and invalidate the
quit weak pointers; when the worker loop is alive run the controlled
shutdown, clear `is_job_pending_` and remove the registrar subscription;
finally flush the cached document via `UpdatePrintedDocument(NULL)`. -/
def PrintJob.stop (s : PrintJobState) : PrintJobState :=
  let s1 := if s.quitScheduled then { s with quitScheduled := false } else s
  let s2 :=
    if s1.worker = some true then
      { PrintJob.controlledWorkerShutdown s1 with
        is_job_pending := false, registered := false }
    else s1
  PrintJob.updatePrintedDocument s2 none

/-- `PrintJob::OnNotifyPrintJobEvent`: the coordinator's reaction to a
job event delivered to its own `Observe`. -/
def PrintJob.onNotifyPrintJobEvent (s : PrintJobState)
    (event_details : JobEventDetails) : PrintJobState :=
  match event_details.type with
  | .FAILED =>
      -- settings_.Clear(); Stop();  (the worker already canceled itself)
      PrintJob.stop { s with settings := s.settings.clear }
  | .USER_INIT_DONE | .DEFAULT_INIT_DONE | .USER_INIT_CANCELED =>
      -- DCHECK_EQ(event_details.document(), document_.get()); only
      s
  | .NEW_DOC | .NEW_PAGE | .PAGE_DONE | .JOB_DONE | .ALL_PAGES_REQUESTED =>
      -- Don't care.
      s
  | .DOC_DONE =>
      -- Deferred: post OnDocumentDone to the UI loop, not handled inline.
      { s with docDoneTasks := s.docDoneTasks + 1 }

/-- `NotificationService::Notify` of a `PRINT_JOB_EVENT` sourced at this
job: append the event to the published log (snapshotting
`is_job_pending_`) and, when the job's registrar subscription is active,
synchronously deliver it to the job's own `Observe`. -/
def PrintJob.notify (s : PrintJobState) (ev : JobEventDetails) : PrintJobState :=
  let s1 :=
    { s with published :=
        { event := ev, pendingAtPublish := s.is_job_pending } :: s.published }
  if s1.registered then PrintJob.onNotifyPrintJobEvent s1 ev else s1

/-- `PrintJob::StartPrinting()`: no-op unless the worker loop is alive
and no job is pending; otherwise post `PrintJobWorker::StartPrinting` to
the worker loop, set `is_job_pending_`, then publish `NEW_DOC`. -/
def PrintJob.startPrinting (s : PrintJobState) : PrintJobState :=
  if ¬s.worker = some true ∨ s.is_job_pending = true then s
  else
    let s1 :=
      { s with workerTasks := WorkerTask.startPrinting s.document :: s.workerTasks }
    let s2 := { s1 with is_job_pending := true }
    PrintJob.notify s2 { type := .NEW_DOC, document := s2.document, page := none }

/-- `PrintJob::Cancel()`: return immediately when already canceling;
otherwise set `is_canceling_`, call `worker_->Cancel()` directly when
the worker loop is alive, publish `FAILED`, run `Stop()`, and clear
`is_canceling_`. -/
def PrintJob.cancel (s : PrintJobState) : PrintJobState :=
  if s.is_canceling then s
  else
    let s1 := { s with is_canceling := true }
    let s2 :=
      if s1.worker = some true then
        { s1 with workerCancelCalls := s1.workerCancelCalls + 1 }
      else s1
    let s3 := PrintJob.notify s2 { type := .FAILED, document := none, page := none }
    let s4 := PrintJob.stop s3
    { s4 with is_canceling := false }

/-- `PrintJob::FlushJob(timeout)`: post the delayed `Quit` bound to the
`quit_factory_` weak pointer and run a nested message loop (the tasks it
executes are modelled as separate scheduler actions); always returns
true. -/
def PrintJob.flushJob (s : PrintJobState) (_timeout : Nat) : PrintJobState × Bool :=
  ({ s with quitScheduled := true }, true)

/-- `PrintJob::DisconnectSource()`: clear the source back-reference and
tell the current document, if any, to disconnect its own. -/
def PrintJob.disconnectSource (s : PrintJobState) : PrintJobState :=
  { s with
    source := none
    document := s.document.map (fun d => { d with sourceConnected := false }) }

/-- `PrintJob::OnDocumentDone()`: stop the worker, then publish
`JOB_DONE` carrying the (now flushed) `document_.get()`. -/
def PrintJob.onDocumentDone (s : PrintJobState) : PrintJobState :=
  let s1 := PrintJob.stop s
  PrintJob.notify s1 { type := .JOB_DONE, document := s1.document, page := none }

/-- `PrintJob::Initialize(job, source, page_count)`: take the worker
(its thread already running, so its loop is alive), copy the owner's
settings, build a fresh document (fresh pointer identity `docId`) with
the given page count, install it, and add the registrar subscription. -/
def PrintJob.initialise (s : PrintJobState) (ownerSettings : PrintSettings)
    (ownerCookie : Int) (docId : Nat) (src : Nat) (page_count : Nat) :
    PrintJobState :=
  let s1 := { s with source := some src, worker := some true,
                     settings := ownerSettings }
  let new_doc : PrintedDocument :=
    { id := docId, cookie := ownerCookie, settings := ownerSettings,
      page_count := page_count, sourceConnected := true }
  let s2 := PrintJob.updatePrintedDocument s1 (some new_doc)
  { s2 with registered := true }

/-- The interleavings the claims quantify over: the public operations
callable on the UI thread plus the scheduler steps that run posted
continuations and deliver events published by the worker. -/
inductive JobAction where
  | initialise (ownerSettings : PrintSettings) (ownerCookie : Int)
      (docId : Nat) (src : Nat) (page_count : Nat)
  | startPrinting
  | cancel
  | stop
  | flushJob (timeout : Nat)
  | disconnectSource
  | deliverEvent (ev : JobEventDetails)
  | runDocDoneTask
  | runPoolTask
deriving DecidableEq, Repr

/-- When an action is enabled: `Initialize`'s single-use contract
(`DCHECK(!source_ && !worker_ && !is_job_pending_ && !is_canceling_ &&
!document_)`), the `worker_` dereferences of
`StartPrinting`/`Cancel`/`Stop`, and the queues feeding the scheduler
steps. -/
def JobAction.enabled (a : JobAction) (s : PrintJobState) : Bool :=
  match a with
  | .initialise _ _ _ _ _ =>
      s.source.isNone && s.worker.isNone && !s.is_job_pending &&
        !s.is_canceling && s.document.isNone
  | .startPrinting => s.worker.isSome
  | .cancel => s.worker.isSome
  | .stop => s.worker.isSome
  | .flushJob _ => true
  | .disconnectSource => true
  | .deliverEvent _ => true
  | .runDocDoneTask => decide (0 < s.docDoneTasks)
  | .runPoolTask => decide (0 < s.poolPending)

/-- Effect of an action on the coordinator state. -/
def JobAction.apply (a : JobAction) (s : PrintJobState) : PrintJobState :=
  match a with
  | .initialise st ck id src pc => PrintJob.initialise s st ck id src pc
  | .startPrinting => PrintJob.startPrinting s
  | .cancel => PrintJob.cancel s
  | .stop => PrintJob.stop s
  | .flushJob t => (PrintJob.flushJob s t).1
  | .disconnectSource => PrintJob.disconnectSource s
  | .deliverEvent ev => PrintJob.notify s ev
  | .runDocDoneTask => PrintJob.onDocumentDone { s with docDoneTasks := s.docDoneTasks - 1 }
  | .runPoolTask => PrintJob.runPoolStopTask s

/-- States reachable from a freshly constructed coordinator by any
sequence of enabled actions. -/
inductive Reachable : PrintJobState → Prop where
  | init : Reachable PrintJob.initialState
  | step {s : PrintJobState} (a : JobAction) :
      Reachable s → a.enabled s = true → Reachable (a.apply s)

/-- States reachable when, additionally, `StartPrinting` is only ever
invoked while the coordinator is neither stopping nor stopped (i.e. no
restart is attempted while a worker-pool stop is outstanding or done). -/
inductive ReachableR : PrintJobState → Prop where
  | init : ReachableR PrintJob.initialState
  | step {s : PrintJobState} (a : JobAction) :
      ReachableR s → a.enabled s = true →
      (a = JobAction.startPrinting → s.is_stopping = false ∧ s.is_stopped = false) →
      ReachableR (a.apply s)

/-! ### Shared concrete states used by witnesses -/

/-- A sample document. -/
def docA : PrintedDocument :=
  { id := 1, cookie := 7, settings := { data := 5 }, page_count := 3,
    sourceConnected := true }

/-- A coordinator right after `Initialize`: worker alive, document
installed, registrar subscription active. -/
def readyState : PrintJobState :=
  PrintJob.initialise PrintJob.initialState { data := 5 } 7 1 4 3

/-! ### Basic lemmas about `UpdatePrintedDocument` -/

/-- `UpdatePrintedDocument` is a no-op when the new document is
pointer-identical to the current one. -/
theorem PrintJob.updatePrintedDocument_noop {s : PrintJobState}
    {d : Option PrintedDocument} (h : s.document = d) :
    PrintJob.updatePrintedDocument s d = s := by
  simp [PrintJob.updatePrintedDocument, h]

/-- After `UpdatePrintedDocument`, the installed document is the
requested one. -/
theorem PrintJob.updatePrintedDocument_document (s : PrintJobState)
    (d : Option PrintedDocument) :
    (PrintJob.updatePrintedDocument s d).document = d := by
  unfold PrintJob.updatePrintedDocument
  split
  · rename_i h; exact h.symm ▸ rfl
  · rfl

/-! ### Claims -/

/-- C1: `Cancel()` is idempotent: in any coordinator state where
`is_canceling_` is already true, a re-entrant `Cancel()` returns
immediately with no observable effect — no field changes, no event is
published, and the worker's `Cancel` is not invoked again. -/
theorem claim_C1 (s : PrintJobState) (h : s.is_canceling = true) :
    PrintJob.cancel s = s := by
  simp [PrintJob.cancel, h]

/-- A state in the dynamic extent of a `Cancel()` call. -/
def cancelingState : PrintJobState :=
  { PrintJob.initialState with is_canceling := true }

theorem claim_C1_witness :
    cancelingState.is_canceling = true ∧
      PrintJob.cancel cancelingState = cancelingState :=
  ⟨rfl, claim_C1 cancelingState rfl⟩

/-- C6: `FlushJob(timeout)` returns true for every timeout and every
coordinator state; its return value never distinguishes "finished
before the timeout" from "the delayed quit fired". -/
theorem claim_C6 (s : PrintJobState) (timeout : Nat) :
    (PrintJob.flushJob s timeout).2 = true := rfl

/-- C7: `UpdatePrintedDocument(new_document)` is a no-op when
`new_document` is pointer-identical to the current document (no field
changes, no worker task posted); in particular a second call with the
same reference produces no worker notification. -/
theorem claim_C7 (s t : PrintJobState) (d e : Option PrintedDocument)
    (h : s.document = d) :
    PrintJob.updatePrintedDocument s d = s ∧
      PrintJob.updatePrintedDocument (PrintJob.updatePrintedDocument t e) e =
        PrintJob.updatePrintedDocument t e :=
  ⟨PrintJob.updatePrintedDocument_noop h,
   PrintJob.updatePrintedDocument_noop
     (PrintJob.updatePrintedDocument_document t e)⟩

theorem claim_C7_witness :
    PrintJob.updatePrintedDocument readyState readyState.document = readyState ∧
      PrintJob.updatePrintedDocument
          (PrintJob.updatePrintedDocument PrintJob.initialState (some docA))
          (some docA) =
        PrintJob.updatePrintedDocument PrintJob.initialState (some docA) :=
  claim_C7 readyState PrintJob.initialState readyState.document (some docA) rfl

/-- C9: the cross-platform finalize step (`ControlledWorkerShutdown`)
sets `is_stopping_` and submits one blocking worker stop to the pool
without touching `is_stopped_`; the pool's completion continuation
(`HoldUntilStopIsCalled`, run after `PrintJobWorker::Stop` returns)
sets `is_stopped_` and clears `is_stopping_`. -/
theorem claim_C9 (s t u : PrintJobState) :
    (PrintJob.controlledWorkerShutdown s).is_stopping = true ∧
      (PrintJob.controlledWorkerShutdown s).poolPending = s.poolPending + 1 ∧
      (PrintJob.controlledWorkerShutdown s).is_stopped = s.is_stopped ∧
      (PrintJob.holdUntilStopIsCalled t).is_stopped = true ∧
      (PrintJob.holdUntilStopIsCalled t).is_stopping = false ∧
      (PrintJob.runPoolStopTask u).is_stopped = true ∧
      (PrintJob.runPoolStopTask u).is_stopping = false :=
  ⟨rfl, rfl, rfl, rfl, rfl, rfl, rfl⟩

/-- C10: `cookie()` returns the invalid id 0 when no document is
current, and the current document's cookie otherwise; it is total and
never dereferences a missing document. -/
theorem claim_C10 (s t : PrintJobState) (d : PrintedDocument)
    (h0 : s.document = none) (h1 : t.document = some d) :
    PrintJob.cookie s = 0 ∧ PrintJob.cookie t = d.cookie := by
  constructor
  · unfold PrintJob.cookie; rw [h0]
  · unfold PrintJob.cookie; rw [h1]

theorem claim_C10_witness :
    PrintJob.cookie PrintJob.initialState = 0 ∧
      PrintJob.cookie readyState = docA.cookie :=
  claim_C10 PrintJob.initialState readyState docA rfl (by decide)

/-- C5: `StartPrinting()` is a no-op whenever the worker loop is not
alive or a job is already pending; otherwise it posts the start task to
the worker loop, sets `is_job_pending_`, and only then publishes
`NEW_DOC` — so the published record's snapshot of the pending flag is
already true for every synchronous observer of that publication. -/
theorem claim_C5 (s t : PrintJobState)
    (h1 : s.worker = some true) (h2 : s.is_job_pending = false)
    (h3 : ¬t.worker = some true ∨ t.is_job_pending = true) :
    PrintJob.startPrinting s =
      { s with
        workerTasks := WorkerTask.startPrinting s.document :: s.workerTasks
        is_job_pending := true
        published :=
          { event := { type := .NEW_DOC, document := s.document, page := none }
            pendingAtPublish := true } :: s.published } ∧
    PrintJob.startPrinting t = t := by
  constructor
  · have hc : ¬(¬s.worker = some true ∨ s.is_job_pending = true) := by
      simp [h1, h2]
    unfold PrintJob.startPrinting
    rw [if_neg hc]
    show (if _ then _ else _) = _
    split
    · rfl
    · rfl
  · unfold PrintJob.startPrinting
    rw [if_pos h3]

theorem claim_C5_witness :
    PrintJob.startPrinting readyState =
      { readyState with
        workerTasks := WorkerTask.startPrinting readyState.document ::
          readyState.workerTasks
        is_job_pending := true
        published :=
          { event := { type := .NEW_DOC, document := readyState.document,
                       page := none }
            pendingAtPublish := true } :: readyState.published } ∧
    PrintJob.startPrinting PrintJob.initialState = PrintJob.initialState :=
  claim_C5 readyState PrintJob.initialState rfl rfl (Or.inl (by decide))

/-! ### Field lemmas about `Stop` and event delivery -/

theorem PrintJob.stop_published (s : PrintJobState) :
    (PrintJob.stop s).published = s.published := by
  rcases s with ⟨doc, set, src, wk, p, c, stg, std, reg, q, pub, wt, wc, dd, pp⟩
  cases q <;> cases doc <;> rcases wk with _ | (_ | _) <;> rfl

theorem PrintJob.stop_document (s : PrintJobState) :
    (PrintJob.stop s).document = none := by
  rcases s with ⟨doc, set, src, wk, p, c, stg, std, reg, q, pub, wt, wc, dd, pp⟩
  cases q <;> cases doc <;> rcases wk with _ | (_ | _) <;> rfl

theorem PrintJob.stop_settings (s : PrintJobState) :
    (PrintJob.stop s).settings = s.settings := by
  rcases s with ⟨doc, set, src, wk, p, c, stg, std, reg, q, pub, wt, wc, dd, pp⟩
  cases q <;> cases doc <;> rcases wk with _ | (_ | _) <;> rfl

theorem PrintJob.stop_is_canceling (s : PrintJobState) :
    (PrintJob.stop s).is_canceling = s.is_canceling := by
  rcases s with ⟨doc, set, src, wk, p, c, stg, std, reg, q, pub, wt, wc, dd, pp⟩
  cases q <;> cases doc <;> rcases wk with _ | (_ | _) <;> rfl

theorem PrintJob.stop_is_stopped (s : PrintJobState) :
    (PrintJob.stop s).is_stopped = s.is_stopped := by
  rcases s with ⟨doc, set, src, wk, p, c, stg, std, reg, q, pub, wt, wc, dd, pp⟩
  cases q <;> cases doc <;> rcases wk with _ | (_ | _) <;> rfl

theorem PrintJob.stop_worker (s : PrintJobState) :
    (PrintJob.stop s).worker = s.worker := by
  rcases s with ⟨doc, set, src, wk, p, c, stg, std, reg, q, pub, wt, wc, dd, pp⟩
  cases q <;> cases doc <;> rcases wk with _ | (_ | _) <;> rfl

theorem PrintJob.stop_docDoneTasks (s : PrintJobState) :
    (PrintJob.stop s).docDoneTasks = s.docDoneTasks := by
  rcases s with ⟨doc, set, src, wk, p, c, stg, std, reg, q, pub, wt, wc, dd, pp⟩
  cases q <;> cases doc <;> rcases wk with _ | (_ | _) <;> rfl

theorem PrintJob.stop_is_job_pending (s : PrintJobState) :
    (PrintJob.stop s).is_job_pending =
      if s.worker = some true then false else s.is_job_pending := by
  rcases s with ⟨doc, set, src, wk, p, c, stg, std, reg, q, pub, wt, wc, dd, pp⟩
  cases q <;> cases doc <;> rcases wk with _ | (_ | _) <;> rfl

theorem PrintJob.stop_is_stopping (s : PrintJobState) :
    (PrintJob.stop s).is_stopping =
      if s.worker = some true then true else s.is_stopping := by
  rcases s with ⟨doc, set, src, wk, p, c, stg, std, reg, q, pub, wt, wc, dd, pp⟩
  cases q <;> cases doc <;> rcases wk with _ | (_ | _) <;> rfl

theorem PrintJob.stop_poolPending (s : PrintJobState) :
    (PrintJob.stop s).poolPending =
      if s.worker = some true then s.poolPending + 1 else s.poolPending := by
  rcases s with ⟨doc, set, src, wk, p, c, stg, std, reg, q, pub, wt, wc, dd, pp⟩
  cases q <;> cases doc <;> rcases wk with _ | (_ | _) <;> rfl

theorem PrintJob.stop_registered (s : PrintJobState) :
    (PrintJob.stop s).registered =
      if s.worker = some true then false else s.registered := by
  rcases s with ⟨doc, set, src, wk, p, c, stg, std, reg, q, pub, wt, wc, dd, pp⟩
  cases q <;> cases doc <;> rcases wk with _ | (_ | _) <;> rfl

theorem PrintJob.onNotifyPrintJobEvent_published (s : PrintJobState)
    (ev : JobEventDetails) :
    (PrintJob.onNotifyPrintJobEvent s ev).published = s.published := by
  rcases ev with ⟨ty, d, pg⟩
  cases ty <;> simp [PrintJob.onNotifyPrintJobEvent, PrintJob.stop_published]

theorem PrintJob.notify_published (s : PrintJobState) (ev : JobEventDetails) :
    (PrintJob.notify s ev).published =
      { event := ev, pendingAtPublish := s.is_job_pending } :: s.published := by
  simp only [PrintJob.notify]
  split
  · rw [PrintJob.onNotifyPrintJobEvent_published]
  · rfl

theorem PrintJob.updatePrintedDocument_is_canceling (s : PrintJobState)
    (d : Option PrintedDocument) :
    (PrintJob.updatePrintedDocument s d).is_canceling = s.is_canceling := by
  unfold PrintJob.updatePrintedDocument; split <;> rfl

theorem PrintJob.updatePrintedDocument_is_job_pending (s : PrintJobState)
    (d : Option PrintedDocument) :
    (PrintJob.updatePrintedDocument s d).is_job_pending = s.is_job_pending := by
  unfold PrintJob.updatePrintedDocument; split <;> rfl

theorem PrintJob.updatePrintedDocument_is_stopping (s : PrintJobState)
    (d : Option PrintedDocument) :
    (PrintJob.updatePrintedDocument s d).is_stopping = s.is_stopping := by
  unfold PrintJob.updatePrintedDocument; split <;> rfl

theorem PrintJob.updatePrintedDocument_is_stopped (s : PrintJobState)
    (d : Option PrintedDocument) :
    (PrintJob.updatePrintedDocument s d).is_stopped = s.is_stopped := by
  unfold PrintJob.updatePrintedDocument; split <;> rfl

theorem PrintJob.updatePrintedDocument_poolPending (s : PrintJobState)
    (d : Option PrintedDocument) :
    (PrintJob.updatePrintedDocument s d).poolPending = s.poolPending := by
  unfold PrintJob.updatePrintedDocument; split <;> rfl

theorem PrintJob.onNotifyPrintJobEvent_is_canceling (s : PrintJobState)
    (ev : JobEventDetails) :
    (PrintJob.onNotifyPrintJobEvent s ev).is_canceling = s.is_canceling := by
  rcases ev with ⟨ty, d, pg⟩
  cases ty <;> simp [PrintJob.onNotifyPrintJobEvent, PrintJob.stop_is_canceling]

theorem PrintJob.notify_is_canceling (s : PrintJobState) (ev : JobEventDetails) :
    (PrintJob.notify s ev).is_canceling = s.is_canceling := by
  simp only [PrintJob.notify]
  split
  · rw [PrintJob.onNotifyPrintJobEvent_is_canceling]
  · rfl

theorem PrintJob.startPrinting_is_canceling (s : PrintJobState) :
    (PrintJob.startPrinting s).is_canceling = s.is_canceling := by
  simp only [PrintJob.startPrinting]
  split
  · rfl
  · rw [PrintJob.notify_is_canceling]

theorem PrintJob.cancel_is_canceling (s : PrintJobState) :
    (PrintJob.cancel s).is_canceling = s.is_canceling := by
  unfold PrintJob.cancel
  split
  · rfl
  · rename_i h
    simp only [Bool.not_eq_true] at h
    exact h.symm

theorem PrintJob.onDocumentDone_is_canceling (s : PrintJobState) :
    (PrintJob.onDocumentDone s).is_canceling = s.is_canceling := by
  simp only [PrintJob.onDocumentDone]
  rw [PrintJob.notify_is_canceling, PrintJob.stop_is_canceling]

theorem PrintJob.initialise_is_canceling (s : PrintJobState)
    (st : PrintSettings) (ck : Int) (docId src pc : Nat) :
    (PrintJob.initialise s st ck docId src pc).is_canceling = s.is_canceling := by
  simp only [PrintJob.initialise]
  rw [show ({ PrintJob.updatePrintedDocument _ _ with registered := true } :
      PrintJobState).is_canceling = _ from rfl,
    PrintJob.updatePrintedDocument_is_canceling]

/-- Every action preserves a cleared `is_canceling_` flag: the flag is
true only inside the dynamic extent of a `Cancel()` call, never at an
action boundary. -/
theorem JobAction.apply_is_canceling (a : JobAction) (s : PrintJobState)
    (h : s.is_canceling = false) : (a.apply s).is_canceling = false := by
  cases a with
  | initialise st ck id src pc => rw [JobAction.apply, PrintJob.initialise_is_canceling]; exact h
  | startPrinting => rw [JobAction.apply, PrintJob.startPrinting_is_canceling]; exact h
  | cancel => rw [JobAction.apply, PrintJob.cancel_is_canceling]; exact h
  | stop => rw [JobAction.apply, PrintJob.stop_is_canceling]; exact h
  | flushJob t => exact h
  | disconnectSource => exact h
  | deliverEvent ev => rw [JobAction.apply, PrintJob.notify_is_canceling]; exact h
  | runDocDoneTask => rw [JobAction.apply, PrintJob.onDocumentDone_is_canceling]; exact h
  | runPoolTask => exact h

/-- In every reachable state the coordinator is not inside a `Cancel()`
call. -/
theorem Reachable.not_canceling {s : PrintJobState} (h : Reachable s) :
    s.is_canceling = false := by
  induction h with
  | init => rfl
  | step a _ _ ih => exact JobAction.apply_is_canceling a _ ih

theorem PrintJob.cancel_published {s : PrintJobState}
    (h : s.is_canceling = false) :
    (PrintJob.cancel s).published =
      { event := { type := .FAILED, document := none, page := none },
        pendingAtPublish := s.is_job_pending } :: s.published := by
  unfold PrintJob.cancel
  rw [if_neg (by simp [h])]
  have hproj : ∀ x : PrintJobState,
      ({ x with is_canceling := false } : PrintJobState).published = x.published :=
    fun _ => rfl
  rw [hproj, PrintJob.stop_published]
  split
  · rw [PrintJob.notify_published]
  · rw [PrintJob.notify_published]

theorem PrintJob.cancel_document {s : PrintJobState}
    (h : s.is_canceling = false) :
    (PrintJob.cancel s).document = none := by
  unfold PrintJob.cancel
  rw [if_neg (by simp [h])]
  have hproj : ∀ x : PrintJobState,
      ({ x with is_canceling := false } : PrintJobState).document = x.document :=
    fun _ => rfl
  rw [hproj, PrintJob.stop_document]

/-- C3: from any reachable coordinator state, `Cancel()` publishes
exactly one `FAILED` event (and nothing else — in particular no
`JOB_DONE` anywhere in the synchronous cancellation sequence, including
the inline delivery of `FAILED` to the coordinator's own handler), then
performs `Stop()` (the cached document is flushed) and leaves the
canceling flag clear. -/
theorem claim_C3 (s : PrintJobState) (h : Reachable s) :
    (PrintJob.cancel s).published =
      { event := { type := .FAILED, document := none, page := none },
        pendingAtPublish := s.is_job_pending } :: s.published ∧
    (∀ rec ∈ (PrintJob.cancel s).published,
        rec.event.type = .JOB_DONE → rec ∈ s.published) ∧
    (PrintJob.cancel s).document = none ∧
    (PrintJob.cancel s).is_canceling = false := by
  have hc := h.not_canceling
  refine ⟨PrintJob.cancel_published hc, ?_, PrintJob.cancel_document hc, ?_⟩
  · intro rec hrec hty
    rw [PrintJob.cancel_published hc] at hrec
    rcases List.mem_cons.mp hrec with rfl | hmem
    · cases hty
    · exact hmem
  · rw [PrintJob.cancel_is_canceling]; exact hc

/-- `readyState` is reachable: it is the result of `Initialize` on a
fresh coordinator. -/
theorem readyState_reachable : Reachable readyState :=
  Reachable.step (JobAction.initialise { data := 5 } 7 1 4 3)
    Reachable.init (by decide)

theorem claim_C3_witness :
    (PrintJob.cancel readyState).published =
      { event := { type := .FAILED, document := none, page := none },
        pendingAtPublish := readyState.is_job_pending } ::
        readyState.published :=
  (claim_C3 readyState readyState_reachable).1

theorem PrintJob.notify_fixed_type (s : PrintJobState)
    (ev : JobEventDetails)
    (hignored : ∀ x : PrintJobState, PrintJob.onNotifyPrintJobEvent x ev = x) :
    PrintJob.notify s ev =
      { s with published :=
          { event := ev, pendingAtPublish := s.is_job_pending } :: s.published } := by
  simp only [PrintJob.notify]
  split
  · rw [hignored]
  · rfl

/-- C4: delivering a `DOC_DONE` event for the current document to the
subscribed coordinator only posts the deferred `OnDocumentDone` task
(nothing is handled inline); running that continuation performs
`Stop()` first and then publishes exactly one `JOB_DONE` event whose
document reference is the already-flushed (null) document, with the
pending flag false at the publication and afterwards. -/
theorem claim_C4 (s t : PrintJobState) (hreg : s.registered = true)
    (ht : t.worker = some true ∨ t.is_job_pending = false) :
    PrintJob.notify s { type := .DOC_DONE, document := s.document, page := none } =
      { s with
        published :=
          { event := { type := .DOC_DONE, document := s.document, page := none }
            pendingAtPublish := s.is_job_pending } :: s.published
        docDoneTasks := s.docDoneTasks + 1 } ∧
    (PrintJob.onDocumentDone t).published =
      { event := { type := .JOB_DONE, document := none, page := none },
        pendingAtPublish := false } :: t.published ∧
    (PrintJob.onDocumentDone t).is_job_pending = false ∧
    (PrintJob.onDocumentDone t).document = none := by
  have hpend : (PrintJob.stop t).is_job_pending = false := by
    rw [PrintJob.stop_is_job_pending]
    rcases ht with hw | hp
    · rw [if_pos hw]
    · split
      · rfl
      · exact hp
  have hjd : ∀ x : PrintJobState,
      PrintJob.onNotifyPrintJobEvent x
        { type := .JOB_DONE, document := (PrintJob.stop t).document, page := none } = x :=
    fun _ => rfl
  refine ⟨?_, ?_, ?_, ?_⟩
  · simp only [PrintJob.notify]
    rw [if_pos (show ({ s with published := _ } : PrintJobState).registered = true from hreg)]
    rfl
  · simp only [PrintJob.onDocumentDone]
    rw [PrintJob.notify_fixed_type _ _ hjd]
    show ({ PrintJob.stop t with published := _ } : PrintJobState).published = _
    rw [show ({ PrintJob.stop t with published :=
        { event := { type := .JOB_DONE, document := (PrintJob.stop t).document,
                     page := none },
          pendingAtPublish := (PrintJob.stop t).is_job_pending } ::
          (PrintJob.stop t).published } : PrintJobState).published =
        { event := { type := .JOB_DONE, document := (PrintJob.stop t).document,
                     page := none },
          pendingAtPublish := (PrintJob.stop t).is_job_pending } ::
          (PrintJob.stop t).published from rfl,
      PrintJob.stop_document, hpend, PrintJob.stop_published]
  · simp only [PrintJob.onDocumentDone]
    rw [PrintJob.notify_fixed_type _ _ hjd]
    exact hpend
  · simp only [PrintJob.onDocumentDone]
    rw [PrintJob.notify_fixed_type _ _ hjd]
    exact PrintJob.stop_document t

theorem claim_C4_witness :
    (PrintJob.onDocumentDone readyState).published =
      { event := { type := .JOB_DONE, document := none, page := none },
        pendingAtPublish := false } :: readyState.published :=
  (claim_C4 readyState readyState rfl (Or.inl rfl)).2.1

/-- The settings value prescribed by the claim's words after an
artifact change — "the cached settings are copied from the new
artifact", for every change "including replacement with none": with no
new artifact to copy from, the copied value can only be the empty
(default-constructed) settings. -/
def specSettingsAfterChange (new_document : Option PrintedDocument)
    (old : PrintSettings) : PrintSettings :=
  match new_document with
  | some d => d.settings
  | none => old.clear

/-- C8 counterexample: on a coordinator holding a document with
non-default settings, flushing the document
(`UpdatePrintedDocument(NULL)`) changes the artifact but leaves the
cached settings untouched, contradicting the claim's "settings are
copied from the new artifact ... including replacement with none". -/
theorem claim_C8_counterexample :
    readyState.document ≠ none ∧
      (PrintJob.updatePrintedDocument readyState none).settings ≠
        specSettingsAfterChange none readyState.settings := by decide

/-- C8 amended: when the artifact changes to a different non-null
document the cached settings are copied from it; replacing the artifact
with none leaves the settings unchanged; and delivery of a `FAILED`
event clears the settings. -/
theorem claim_C8_amended (s t u : PrintJobState) (d : PrintedDocument)
    (h : s.document ≠ some d) (hreg : u.registered = true) :
    (PrintJob.updatePrintedDocument s (some d)).settings = d.settings ∧
    (PrintJob.updatePrintedDocument t none).settings = t.settings ∧
    (PrintJob.notify u { type := .FAILED, document := none, page := none }).settings =
      u.settings.clear := by
  refine ⟨?_, ?_, ?_⟩
  · unfold PrintJob.updatePrintedDocument
    rw [if_neg h]
  · unfold PrintJob.updatePrintedDocument
    split <;> rfl
  · simp only [PrintJob.notify]
    rw [if_pos (show ({ u with published := _ } : PrintJobState).registered = true
      from hreg)]
    show (PrintJob.onNotifyPrintJobEvent _ _).settings = _
    unfold PrintJob.onNotifyPrintJobEvent
    rw [PrintJob.stop_settings]

theorem claim_C8_amended_witness :
    (PrintJob.updatePrintedDocument PrintJob.initialState (some docA)).settings =
        docA.settings ∧
      (PrintJob.updatePrintedDocument readyState none).settings =
        readyState.settings ∧
      (PrintJob.notify readyState
          { type := .FAILED, document := none, page := none }).settings =
        readyState.settings.clear :=
  claim_C8_amended PrintJob.initialState readyState readyState docA
    (by decide) rfl

/-- The violating trace for the literal form of C2: `Initialize`, then
`Stop` (which submits the blocking worker stop to the pool but leaves
the worker loop alive until that pool task runs), then `StartPrinting`
(the worker loop is still alive and no job is pending, so it sets
`is_job_pending_`), and finally the pool task together with its
`HoldUntilStopIsCalled` reply (which sets `is_stopped_`). -/
def c2Trace : PrintJobState :=
  JobAction.apply .runPoolTask
    (JobAction.apply .startPrinting
      (JobAction.apply .stop
        (JobAction.apply (.initialise { data := 5 } 7 1 4 3)
          PrintJob.initialState)))

/-- C2 counterexample: a state reachable by public operations and
posted continuations from a fresh coordinator in which
`is_job_pending_` and `is_stopped_` are both true — `StartPrinting`
called in the window while `Stop`'s pool operation is still
outstanding revives the pending flag, and the pool reply then sets the
stopped flag without clearing it. -/
theorem claim_C2_counterexample :
    Reachable c2Trace ∧ c2Trace.is_job_pending = true ∧
      c2Trace.is_stopped = true := by
  refine ⟨?_, by decide, by decide⟩
  exact Reachable.step _
    (Reachable.step _
      (Reachable.step _
        (Reachable.step _ Reachable.init (by decide))
        (by decide))
      (by decide))
    (by decide)

/-- The inductive invariant behind the pending/stopped mutual
exclusion: pending excludes stopped, and while a pool stop operation is
outstanding the job is not pending and the coordinator is stopping or
already stopped. -/
def InvP (s : PrintJobState) : Prop :=
  (s.is_job_pending = true → s.is_stopped = false) ∧
  (0 < s.poolPending → s.is_job_pending = false) ∧
  (0 < s.poolPending → s.is_stopping = true ∨ s.is_stopped = true)

theorem InvP_stop {s : PrintJobState} (h : InvP s) : InvP (PrintJob.stop s) := by
  obtain ⟨h1, h2, h3⟩ := h
  refine ⟨?_, ?_, ?_⟩
  · rw [PrintJob.stop_is_job_pending, PrintJob.stop_is_stopped]
    split
    · intro hc; cases hc
    · exact h1
  · rw [PrintJob.stop_poolPending, PrintJob.stop_is_job_pending]
    split
    · intro _; rfl
    · exact h2
  · rw [PrintJob.stop_poolPending, PrintJob.stop_is_stopping,
      PrintJob.stop_is_stopped]
    split
    · intro _; exact Or.inl rfl
    · exact h3

theorem InvP_onNotify {s : PrintJobState} (ev : JobEventDetails)
    (h : InvP s) : InvP (PrintJob.onNotifyPrintJobEvent s ev) := by
  unfold PrintJob.onNotifyPrintJobEvent
  rcases ev with ⟨ty, d, pg⟩
  cases ty
  case FAILED => exact InvP_stop h
  all_goals exact h

theorem InvP_notify {s : PrintJobState} (ev : JobEventDetails)
    (h : InvP s) : InvP (PrintJob.notify s ev) := by
  simp only [PrintJob.notify]
  split
  · exact InvP_onNotify ev h
  · exact h

theorem InvP_cancel {s : PrintJobState} (h : InvP s) :
    InvP (PrintJob.cancel s) := by
  simp only [PrintJob.cancel]
  split
  · exact h
  · split
    · exact InvP_stop (InvP_notify _ h)
    · exact InvP_stop (InvP_notify _ h)

theorem InvP_startPrinting {s : PrintJobState} (hstg : s.is_stopping = false)
    (hstd : s.is_stopped = false) (h : InvP s) :
    InvP (PrintJob.startPrinting s) := by
  unfold PrintJob.startPrinting
  split
  · exact h
  · refine InvP_notify _ ⟨fun _ => hstd, ?_, h.2.2⟩
    intro hp
    rcases h.2.2 hp with h' | h'
    · rw [hstg] at h'; cases h'
    · rw [hstd] at h'; cases h'

theorem InvP_onDocumentDone {s : PrintJobState} (h : InvP s) :
    InvP (PrintJob.onDocumentDone s) :=
  InvP_notify _ (InvP_stop h)

theorem InvP_runPoolStopTask {s : PrintJobState} (hpool : 0 < s.poolPending)
    (h : InvP s) : InvP (PrintJob.runPoolStopTask s) := by
  refine ⟨?_, ?_, ?_⟩
  · intro hp
    rw [show (PrintJob.runPoolStopTask s).is_job_pending = s.is_job_pending
      from rfl, h.2.1 hpool] at hp
    cases hp
  · intro _; exact h.2.1 hpool
  · intro _; exact Or.inr rfl

theorem InvP_initialise {s : PrintJobState} (st : PrintSettings) (ck : Int)
    (docId src pc : Nat) (h : InvP s) :
    InvP (PrintJob.initialise s st ck docId src pc) := by
  simp only [PrintJob.initialise]
  refine ⟨?_, ?_, ?_⟩
  · rw [show ∀ x : PrintJobState,
        ({ x with registered := true } : PrintJobState).is_job_pending =
          x.is_job_pending from fun _ => rfl,
      PrintJob.updatePrintedDocument_is_job_pending,
      show ∀ x : PrintJobState,
        ({ x with registered := true } : PrintJobState).is_stopped =
          x.is_stopped from fun _ => rfl,
      PrintJob.updatePrintedDocument_is_stopped]
    exact h.1
  · rw [show ∀ x : PrintJobState,
        ({ x with registered := true } : PrintJobState).poolPending =
          x.poolPending from fun _ => rfl,
      PrintJob.updatePrintedDocument_poolPending,
      show ∀ x : PrintJobState,
        ({ x with registered := true } : PrintJobState).is_job_pending =
          x.is_job_pending from fun _ => rfl,
      PrintJob.updatePrintedDocument_is_job_pending]
    exact h.2.1
  · rw [show ∀ x : PrintJobState,
        ({ x with registered := true } : PrintJobState).poolPending =
          x.poolPending from fun _ => rfl,
      PrintJob.updatePrintedDocument_poolPending,
      show ∀ x : PrintJobState,
        ({ x with registered := true } : PrintJobState).is_stopping =
          x.is_stopping from fun _ => rfl,
      PrintJob.updatePrintedDocument_is_stopping,
      show ∀ x : PrintJobState,
        ({ x with registered := true } : PrintJobState).is_stopped =
          x.is_stopped from fun _ => rfl,
      PrintJob.updatePrintedDocument_is_stopped]
    exact h.2.2

/-- The invariant holds along every restricted run. -/
theorem ReachableR.invP {s : PrintJobState} (h : ReachableR s) : InvP s := by
  induction h with
  | init => exact ⟨fun hc => (by cases hc), fun hc => (by cases hc),
      fun hc => (by cases hc)⟩
  | step a hr henabled hrestrict ih =>
      cases a with
      | initialise st ck id src pc => exact InvP_initialise st ck id src pc ih
      | startPrinting =>
          obtain ⟨h1, h2⟩ := hrestrict rfl
          exact InvP_startPrinting h1 h2 ih
      | cancel => exact InvP_cancel ih
      | stop => exact InvP_stop ih
      | flushJob t => exact ih
      | disconnectSource => exact ih
      | deliverEvent ev => exact InvP_notify ev ih
      | runDocDoneTask => exact InvP_onDocumentDone ih
      | runPoolTask =>
          exact InvP_runPoolStopTask (of_decide_eq_true henabled) ih

/-- C2 amended: in every state reachable from a fresh coordinator by
public operations, event deliveries and posted continuations — provided
`StartPrinting` is never invoked while the coordinator is stopping or
stopped (i.e. while a `Stop`'s pool operation is outstanding or
finished) — `is_job_pending_` and `is_stopped_` are never both true. -/
theorem claim_C2_amended (s : PrintJobState) (h : ReachableR s) :
    ¬(s.is_job_pending = true ∧ s.is_stopped = true) := by
  rintro ⟨hp, hs⟩
  rw [h.invP.1 hp] at hs
  cases hs

theorem claim_C2_amended_witness :
    ¬(PrintJob.initialState.is_job_pending = true ∧
        PrintJob.initialState.is_stopped = true) :=
  claim_C2_amended PrintJob.initialState ReachableR.init
